import Mathlib

/-!
Verification of the Netatmo-to-MQTT bridge (`lib/mqtt_old.js` NetatmoClient).

The development shallowly embeds the JavaScript `NetatmoClient` class:
raw JSON payloads become association lists over a small value type,
object-property access becomes an `Option`-valued lookup, the stateful
HTTP client becomes a fuel-indexed interpreter that threads the token
state, a list of pending transport outcomes, and a trace of the network
calls it makes.
-/

namespace Netatmo

/-- A JavaScript value as it appears in measurement payloads:
a number (modelled exactly as a rational), a string, or a boolean. -/
inductive JVal
  | num (q : Rat)
  | str (s : String)
  | bool (b : Bool)
deriving DecidableEq, Repr

/-- A JavaScript object, modelled as an association list of its own
properties (no duplicate keys in well-formed payloads; lookup takes the
first occurrence, as JS property access would). -/
abbrev JObj := List (String × JVal)

/-- Property access `m[k]`: `some v` when the key is an own property
(the `Object.prototype.hasOwnProperty.call(measure, k)` test of the
source), `none` when absent. -/
def getProp (m : JObj) (k : String) : Option JVal :=
  match m with
  | [] => none
  | (k', v) :: rest => if k' = k then some v else getProp rest k

/-- One conditional copy of `processMeasure`:
`if (hasOwnProperty(measure, src)) { data[dst] = measure[src] }`. -/
def copyField (m : JObj) (src dst : String) : JObj :=
  match getProp m src with
  | some v => [(dst, v)]
  | none => []

/-- `processMeasure` from `src/lib/mqtt_old.js` lines 455-515: the sixteen
conditional presence-based copies, in source order. -/
def processMeasure (m : JObj) : JObj :=
  copyField m "Temperature" "temperature" ++
  copyField m "temp_trend" "temptrend" ++
  copyField m "Pressure" "pressure" ++
  copyField m "AbsolutePressure" "pressureabs" ++
  copyField m "pressure_trend" "pressuretrend" ++
  copyField m "Humidity" "humidity" ++
  copyField m "CO2" "co2" ++
  copyField m "Noise" "noise" ++
  copyField m "Rain" "rain" ++
  copyField m "sum_rain_1" "sumrain1" ++
  copyField m "sum_rain_24" "sumrain24" ++
  copyField m "WindStrength" "windstrength" ++
  copyField m "WindAngle" "windangle" ++
  copyField m "GustStrength" "guststrength" ++
  copyField m "GustAngle" "gustangle" ++
  copyField m "health_idx" "healthidx"

/-- JS `a || b` on optional lookups (first present value wins). -/
def jsOr (a b : Option JVal) : Option JVal :=
  match a with
  | some v => some v
  | none => b

@[simp] theorem jsOr_none_left (b : Option JVal) : jsOr none b = b := rfl

@[simp] theorem jsOr_none_right (a : Option JVal) : jsOr a none = a := by
  cases a <;> rfl

theorem getProp_append (l₁ l₂ : JObj) (k : String) :
    getProp (l₁ ++ l₂) k = jsOr (getProp l₁ k) (getProp l₂ k) := by
  induction l₁ with
  | nil => rfl
  | cons a rest ih =>
    obtain ⟨k', v⟩ := a
    by_cases h : k' = k <;> simp [getProp, h, ih, jsOr]

theorem getProp_copyField (m : JObj) (src dst k : String) :
    getProp (copyField m src dst) k =
      if dst = k then getProp m src else none := by
  cases h : getProp m src <;> simp [copyField, h, getProp]

/-- The all-fields dashboard payload of the repository's own test
(`tests/netatmo.test.js`, "process measure of station"). -/
def fullDashboard : JObj :=
  [("time_utc", .num 1555677739), ("Temperature", .num (mkRat 237 10)),
   ("CO2", .num 967), ("Humidity", .num 41), ("Noise", .num 42),
   ("Pressure", .num (mkRat 9976 10)), ("AbsolutePressure", .num (mkRat 10174 10)),
   ("min_temp", .num (mkRat 212 10)), ("max_temp", .num (mkRat 274 10)),
   ("date_min_temp", .num 1555631374), ("date_max_temp", .num 1555662436),
   ("temp_trend", .str "up"), ("pressure_trend", .str "up"),
   ("Rain", .num 0), ("sum_rain_24", .num 0), ("sum_rain_1", .num 0),
   ("WindStrength", .num 2), ("WindAngle", .num 75),
   ("GustStrength", .num 3), ("GustAngle", .num 75),
   ("max_wind_str", .num 4), ("max_wind_angle", .num 100),
   ("date_max_wind_str", .num 1555673190), ("co2", .num 967),
   ("health_idx", .num 1)]

/-- Claim C1: `processMeasure` is claimed to apply a 24-entry rename
table, but the source implements only 16 entries.  On the repository's
own all-fields test payload, `min_temp`, `max_temp`, `date_min_temp`,
`date_max_temp`, `max_wind_str`, `max_wind_angle`, `date_max_wind_str`
and `time_utc` are present in the input yet none of their claimed
renamed keys (`mintemp`, `maxtemp`, `mintemputc`, `maxtemputc`,
`windstrenghtmax`, `windanglemax`, `windmaxutc`, `timeutc`) appears in
the output, contradicting the claim and the repository's test. -/
theorem processMeasure_drops_extended_fields :
    getProp fullDashboard "min_temp" = some (.num (mkRat 212 10)) ∧
    getProp fullDashboard "time_utc" = some (.num 1555677739) ∧
    getProp (processMeasure fullDashboard) "mintemp" = none ∧
    getProp (processMeasure fullDashboard) "maxtemp" = none ∧
    getProp (processMeasure fullDashboard) "mintemputc" = none ∧
    getProp (processMeasure fullDashboard) "maxtemputc" = none ∧
    getProp (processMeasure fullDashboard) "windstrenghtmax" = none ∧
    getProp (processMeasure fullDashboard) "windanglemax" = none ∧
    getProp (processMeasure fullDashboard) "windmaxutc" = none ∧
    getProp (processMeasure fullDashboard) "timeutc" = none ∧
    getProp (processMeasure fullDashboard) "temperature" = some (.num (mkRat 237 10)) := by
  decide

/-- The concrete input of claim C7's example:
`{Temperature: 23.7, Humidity: 41, Rain: 0}`. -/
def rainExample : JObj :=
  [("Temperature", .num (mkRat 237 10)), ("Humidity", .num 41), ("Rain", .num 0)]

/-- Claim C7: `processMeasure` copies each of its table fields iff the
source key is present (a presence test, value-agnostic, so a present `0`
is copied), and on `{Temperature: 23.7, Humidity: 41, Rain: 0}` the
output is exactly `{temperature: 23.7, humidity: 41, rain: 0}` with no
`sumrain1`/`sumrain24` keys. -/
theorem processMeasure_presence_copy (m : JObj) :
    getProp (processMeasure m) "temperature" = getProp m "Temperature" ∧
    getProp (processMeasure m) "temptrend" = getProp m "temp_trend" ∧
    getProp (processMeasure m) "pressure" = getProp m "Pressure" ∧
    getProp (processMeasure m) "pressureabs" = getProp m "AbsolutePressure" ∧
    getProp (processMeasure m) "pressuretrend" = getProp m "pressure_trend" ∧
    getProp (processMeasure m) "humidity" = getProp m "Humidity" ∧
    getProp (processMeasure m) "co2" = getProp m "CO2" ∧
    getProp (processMeasure m) "noise" = getProp m "Noise" ∧
    getProp (processMeasure m) "rain" = getProp m "Rain" ∧
    getProp (processMeasure m) "sumrain1" = getProp m "sum_rain_1" ∧
    getProp (processMeasure m) "sumrain24" = getProp m "sum_rain_24" ∧
    getProp (processMeasure m) "windstrength" = getProp m "WindStrength" ∧
    getProp (processMeasure m) "windangle" = getProp m "WindAngle" ∧
    getProp (processMeasure m) "guststrength" = getProp m "GustStrength" ∧
    getProp (processMeasure m) "gustangle" = getProp m "GustAngle" ∧
    getProp (processMeasure m) "healthidx" = getProp m "health_idx" ∧
    processMeasure rainExample =
      [("temperature", .num (mkRat 237 10)), ("humidity", .num 41), ("rain", .num 0)] := by
  refine ⟨?_, ?_, ?_, ?_, ?_, ?_, ?_, ?_, ?_, ?_, ?_, ?_, ?_, ?_, ?_, ?_, by decide⟩ <;>
    simp +decide [processMeasure, getProp_append, getProp_copyField]

/-- A station module payload (`station.modules[i]`): identity and status
fields read by `processStation`.  Optional fields model properties that
may be absent from the raw payload. -/
structure NModule where
  mid : String
  module_name : String
  mtype : String
  reachable : Option Bool
  rf_status : Option Int
  battery_percent : Option Int
  dashboard_data : JObj
deriving DecidableEq, Repr

/-- A weather-station payload as read by `processStation`.  `modules` is
`none` when the raw payload has no `modules` property at all. -/
structure Station where
  sid : String
  station_name : String
  stype : String
  home_name : String
  reachable : Option Bool
  wifi_status : Option Int
  dashboard_data : JObj
  modules : Option (List NModule)
deriving DecidableEq, Repr

/-- An air-quality monitor payload as read by `processAircare`. -/
structure Aircare where
  aid : String
  station_name : String
  atype : String
  module_name : String
  reachable : Option Bool
  wifi_status : Option Int
  dashboard_data : JObj
deriving DecidableEq, Repr

/-- One emitted record (`eventEmitter.emit('frame', measure)`): the
normalized measure plus the merged identity/status fields. -/
structure Frame where
  data : JObj
  id : String
  name : String
  ftype : String
  home : Option String
  module : Option String
  online : Int
  wifistatus : Option Int
  rfstatus : Option Int
  battery : Option Int
deriving DecidableEq, Repr

/-- JS truthiness of the raw `reachable` field feeding
`(x.reachable) ? 1 : 0`: only a present `true` is truthy. -/
def onlineOf (reachable : Option Bool) : Int :=
  if reachable = some true then 1 else 0

/-- The station's own record built by `processStation` before the module
loop (`src/lib/mqtt_old.js` lines 396-404). -/
def stationRecord (s : Station) : Frame :=
  { data := processMeasure s.dashboard_data
    id := s.sid
    name := s.station_name
    ftype := s.stype
    home := some s.home_name
    module := none
    online := onlineOf s.reachable
    wifistatus := s.wifi_status
    rfstatus := none
    battery := none }

/-- One module record of the loop in `processStation`
(`src/lib/mqtt_old.js` lines 414-427). -/
def moduleRecord (s : Station) (m : NModule) : Frame :=
  { data := processMeasure m.dashboard_data
    id := m.mid
    name := m.module_name
    ftype := m.mtype
    home := some s.home_name
    module := none
    online := onlineOf m.reachable
    wifistatus := none
    rfstatus := m.rf_status
    battery := m.battery_percent }

/-- lodash `_.isEmpty` on `station.modules`: `undefined` and `[]` are
both empty. -/
def lodashIsEmpty (mods : Option (List NModule)) : Bool :=
  match mods with
  | none => true
  | some [] => true
  | some (_ :: _) => false

/-- `processStation` (`src/lib/mqtt_old.js` lines 395-428): emits the
station record, then either warns and stops when `_.isEmpty(modules)`,
or emits one record per module.  Returns the emitted frames in order and
the warning messages logged. -/
def processStation (s : Station) : List Frame × List String :=
  let frame := stationRecord s
  if lodashIsEmpty s.modules then
    ([frame], ["This station have no modules: " ++ s.station_name])
  else
    (frame :: (s.modules.getD []).map (moduleRecord s), [])

/-- `processAircare` (`src/lib/mqtt_old.js` lines 435-447): emits a
single record for the air-quality device. -/
def processAircare (a : Aircare) : Frame :=
  { data := processMeasure a.dashboard_data
    id := a.aid
    name := a.station_name
    ftype := a.atype
    home := none
    module := some a.module_name
    online := onlineOf a.reachable
    wifistatus := a.wifi_status
    rfstatus := none
    battery := none }

/-- Claim C8: a station with an empty module list yields exactly the
station's own record (emitted before the module check) together with a
warning naming the station, and no module records; a station with a
non-empty module list yields the station record followed by exactly one
record per module, with no warning. -/
theorem processStation_emission (s : Station) (ms : List NModule) :
    (s.modules = some [] →
      processStation s =
        ([stationRecord s], ["This station have no modules: " ++ s.station_name])) ∧
    (s.modules = some ms → ms ≠ [] →
      processStation s = (stationRecord s :: ms.map (moduleRecord s), []) ∧
      (processStation s).1.length = 1 + ms.length) := by
  constructor
  · intro h
    simp [processStation, h, lodashIsEmpty]
  · intro h hne
    match ms, hne with
    | m :: rest, _ =>
      simp [processStation, h, lodashIsEmpty]
      omega

/-- Concrete inputs for the witnesses of the station claims. -/
def sampleModule : NModule :=
  { mid := "06:00:00:02:47:04", module_name := "Indoor Module"
    mtype := "NAModule4", reachable := some true, rf_status := some 31
    battery_percent := some 58, dashboard_data := [] }

def sampleStation (mods : Option (List NModule)) : Station :=
  { sid := "70:ee:50:22:a3:00", station_name := "Casa", stype := "NAMain"
    home_name := "Home", reachable := some true, wifi_status := some 55
    dashboard_data := [], modules := mods }

/-- Witness for claim C8's theorem at concrete stations with an empty
and with a one-element module list. -/
theorem processStation_emission_witness :
    processStation (sampleStation (some [])) =
      ([stationRecord (sampleStation (some []))],
       ["This station have no modules: Casa"]) ∧
    processStation (sampleStation (some [sampleModule])) =
      (stationRecord (sampleStation (some [sampleModule])) ::
        [sampleModule].map (moduleRecord (sampleStation (some [sampleModule]))), []) := by
  refine ⟨(processStation_emission (sampleStation (some [])) []).1 rfl, ?_⟩
  exact ((processStation_emission (sampleStation (some [sampleModule]))
    [sampleModule]).2 rfl (by decide)).1

/-- Claim C9: every record emitted by `processStation` and by
`processAircare` carries an `online` field that is exactly `0` or
exactly `1`, computed from the truthiness of the raw `reachable` field;
in particular an absent `reachable` yields `online = 0`, never a missing
or null field. -/
theorem frame_online_zero_or_one (s : Station) (a : Aircare) (f : Frame) :
    (f ∈ (processStation s).1 → f.online = 0 ∨ f.online = 1) ∧
    ((processAircare a).online = 0 ∨ (processAircare a).online = 1) ∧
    (s.reachable = none → (stationRecord s).online = 0) ∧
    (a.reachable = none → (processAircare a).online = 0) := by
    refine ⟨?_, ?_, ?_, ?_⟩
    · intro hf
      simp only [processStation] at hf
      split at hf
      · simp at hf
        subst hf
        simp [stationRecord, onlineOf]
        tauto
      · simp at hf
        rcases hf with hf | ⟨m, _, hf⟩ <;> subst hf
        · simp [stationRecord, onlineOf]
          tauto
        · simp [moduleRecord, onlineOf]
          tauto
    · simp [processAircare, onlineOf]
      tauto
    · intro h
      simp [stationRecord, onlineOf, h]
    · intro h
      simp [processAircare, onlineOf, h]

def sampleAircare : Aircare :=
  { aid := "70:ee:50:22:a3:00", station_name := "Bedroom", atype := "NHC"
    module_name := "string", reachable := none, wifi_status := some 22
    dashboard_data := [] }

/-- Witness for claim C9's theorem: the station record of a station with
no `reachable` field is in the emitted list and has `online = 0`, and
the aircare record with absent `reachable` has `online = 0`. -/
theorem frame_online_zero_or_one_witness :
    ((stationRecord (sampleStation none)).online = 0 ∨
      (stationRecord (sampleStation none)).online = 1) ∧
    (stationRecord { sampleStation none with reachable := none }).online = 0 ∧
    (processAircare sampleAircare).online = 0 := by
  refine ⟨?_, ?_, ?_⟩
  · exact (frame_online_zero_or_one (sampleStation none) sampleAircare
      (stationRecord (sampleStation none))).1 (by decide)
  · exact (frame_online_zero_or_one
      { sampleStation none with reachable := none } sampleAircare
      (stationRecord (sampleStation none))).2.2.1 rfl
  · exact (frame_online_zero_or_one (sampleStation none) sampleAircare
      (stationRecord (sampleStation none))).2.2.2 rfl

/-- Claim C10: `processStation` treats an absent `modules` property
exactly like an empty module list: the warning path is taken, no module
iteration happens and no error is raised (the function is total on such
stations by construction). -/
theorem processStation_missing_modules (s : Station) :
    s.modules = none →
      processStation s =
        ([stationRecord s], ["This station have no modules: " ++ s.station_name]) ∧
      processStation s = processStation { s with modules := some [] } := by
  intro h
  constructor <;> simp [processStation, h, lodashIsEmpty, stationRecord]

/-- Witness for claim C10's theorem at a concrete station whose raw
payload has no `modules` property at all. -/
theorem processStation_missing_modules_witness :
    processStation (sampleStation none) =
      ([stationRecord (sampleStation none)],
       ["This station have no modules: Casa"]) ∧
    processStation (sampleStation none) =
      processStation { sampleStation none with modules := some [] } := by
  exact processStation_missing_modules (sampleStation none) rfl

/-! ### Token store, request executor and authenticator -/

/-- The token endpoint path (`PATH_AUTH` in the source). -/
def PATH_AUTH : String := "/oauth2/token"

/-- Immutable client credentials set at construction. -/
structure Creds where
  clientId : String
  clientSecret : String
  username : String
  password : String
deriving DecidableEq, Repr

/-- The mutable token state of the client (`this.accessToken`,
`this.refreshToken`, `this.expiresInTimestamp`); `none` models JS
`null`/`undefined`. -/
structure ClientState where
  accessToken : Option String
  refreshToken : Option String
  expiresInTimestamp : Int
deriving DecidableEq, Repr

/-- JS truthiness of an optional string: `null`/`undefined` and the
empty string are falsy. -/
def truthyStr (s : Option String) : Bool :=
  match s with
  | some v => v ≠ ""
  | none => false

/-- JS truthiness of an optional number: `undefined` and `0` are falsy. -/
def truthyNum (n : Option Int) : Bool :=
  match n with
  | some v => v ≠ 0
  | none => false

/-- A vendor `error` value in a structured error response: either a bare
string (e.g. `'invalid_request'`) or an object with optional `code` and
`message` properties. -/
inductive ErrVal
  | str (s : String)
  | obj (code : Option Int) (message : Option String)
deriving DecidableEq, Repr

/-- JS truthiness of the optional `error` value: a missing value and the
empty string are falsy, every object is truthy. -/
def truthyErrVal (e : Option ErrVal) : Bool :=
  match e with
  | some (.str s) => s ≠ ""
  | some (.obj _ _) => true
  | none => false

/-- `error.code`: `undefined` on a string error value. -/
def errCode (e : Option ErrVal) : Option Int :=
  match e with
  | some (.obj c _) => c
  | _ => none

/-- `error.message`: `undefined` on a string error value. -/
def errMessage (e : Option ErrVal) : Option String :=
  match e with
  | some (.obj _ m) => m
  | _ => none

/-- `JSON.stringify` on a vendor error value, as used by the third
classification branch (e.g. `{"code":99}`). -/
def jsonStringify (v : ErrVal) : String :=
  match v with
  | .str s => "\"" ++ s ++ "\""
  | .obj c m =>
    let cf := match c with
      | some n => ["\"code\":" ++ toString n]
      | none => []
    let mf := match m with
      | some s => ["\"message\":\"" ++ s ++ "\""]
      | none => []
    "\x7b" ++ String.intercalate "," (cf ++ mf) ++ "\x7d"

/-- The structured body of an HTTP error response
(`e.response.data`). -/
structure ErrData where
  error_description : Option String
  error : Option ErrVal
deriving DecidableEq, Repr

/-- The body of a successful authentication response, or an opaque body
for the other endpoints.  Reading token fields off a non-auth body
yields `undefined`, as JS property access would. -/
structure AuthPayload where
  access_token : Option String
  refresh_token : Option String
  expires_in : Option Int
deriving DecidableEq, Repr

inductive Body
  | auth (p : AuthPayload)
  | plain (s : String)
deriving DecidableEq, Repr

/-- One transport outcome for one `axios(config)` call: a success with a
body, an HTTP error with status, optional structured data and the axios
error message, or a transport-level failure with no response at all. -/
inductive Outcome
  | ok (body : Body)
  | httpErr (status : Int) (data : Option ErrData) (emsg : String)
  | netErr (emsg : String)
deriving DecidableEq, Repr

/-- The record of one network call the executor issued: method, path,
query params, form data, and the `Authorization` header when one was
attached. -/
structure HttpCall where
  method : String
  path : String
  params : Option (List (String × String))
  data : Option (List (String × String))
  auth : Option String
deriving DecidableEq, Repr

/-- Failures raised by the client, mirroring the thrown `Error`s:
the local precondition errors, the invalid-token error and the
`HTTP request <path> failed: <msg> (<status>)` failures. -/
inductive NetErr
  | missingAccessToken
  | missingRefreshToken
  | invalidToken
  | requestFailed (path msg : String) (status : Option Int)
deriving DecidableEq, Repr

/-- A run error: a thrown client error, or interpreter exhaustion
(`stuck` is only reached when the fuel or the outcome list runs out and
never occurs in the scenarios of the claims). -/
inductive RunErr
  | err (e : NetErr)
  | stuck
deriving DecidableEq, Repr

instance {α β : Type} [DecidableEq α] [DecidableEq β] :
    DecidableEq (Except α β) := fun a b =>
  match a, b with
  | .ok x, .ok y =>
    if h : x = y then .isTrue (h ▸ rfl)
    else .isFalse (fun hc => h (Except.ok.inj hc))
  | .error x, .error y =>
    if h : x = y then .isTrue (h ▸ rfl)
    else .isFalse (fun hc => h (Except.error.inj hc))
  | .ok _, .error _ => .isFalse (fun hc => Except.noConfusion hc)
  | .error _, .ok _ => .isFalse (fun hc => Except.noConfusion hc)

/-- The result of running one client operation: the value or error, the
token state after the run, the transport outcomes not yet consumed, and
the network calls made, in order. -/
structure RunResult where
  res : Except RunErr Body
  st : ClientState
  outs : List Outcome
  calls : List HttpCall
deriving DecidableEq, Repr

/-- The expired-token retry signature of `request`
(`src/lib/mqtt_old.js` line 239): first attempt, HTTP 401 or 403, a
truthy vendor `error` with a truthy `code` equal to `3`. -/
def expiredSig (isRetry : Bool) (status : Int) (d : ErrData) : Bool :=
  !isRetry && (status == 403 || status == 401) &&
    truthyErrVal d.error && truthyNum (errCode d.error) &&
    (errCode d.error == some 3)

/-- The error-classification cascade of `request`'s catch block
(`src/lib/mqtt_old.js` lines 245-259), applied when the retry signature
does not match: `error_description` first, then `error.message`, then
`JSON.stringify(error)`, else the raw axios message without status. -/
def classify (path : String) (status : Int) (d : ErrData) (emsg : String) : NetErr :=
  if truthyStr d.error_description then
    .requestFailed path (d.error_description.getD "") (some status)
  else if truthyErrVal d.error && truthyStr (errMessage d.error) then
    .requestFailed path ((errMessage d.error).getD "") (some status)
  else if truthyErrVal d.error then
    .requestFailed path ((d.error.map jsonStringify).getD "") (some status)
  else
    .requestFailed path emsg none

/-- `setToken` (`src/lib/mqtt_old.js` lines 192-199): requires truthy
`access_token`, `refresh_token` and `expires_in`, else throws
`Invalid Netatmo token`; on success overwrites all three stored fields,
with expiry `now + expires_in`. -/
def setToken (now : Int) (b : Body) : Except NetErr ClientState :=
  match b with
  | .plain _ => .error .invalidToken
  | .auth p =>
    if !truthyStr p.access_token || !truthyStr p.refresh_token ||
        !truthyNum p.expires_in then
      .error .invalidToken
    else
      .ok { accessToken := p.access_token
            refreshToken := p.refresh_token
            expiresInTimestamp := now + p.expires_in.getD 0 }

/-- The form data of the refresh-token grant
(`authenticateByRefreshToken`). -/
def refreshGrantData (c : Creds) (rt : String) : List (String × String) :=
  [("grant_type", "refresh_token"), ("client_id", c.clientId),
   ("client_secret", c.clientSecret), ("refresh_token", rt)]

/-- The form data of the password grant
(`authenticateByClientCredentials`). -/
def passwordGrantData (c : Creds) : List (String × String) :=
  [("grant_type", "password"), ("client_id", c.clientId),
   ("client_secret", c.clientSecret), ("username", c.username),
   ("password", c.password), ("scope", "read_station read_homecoach")]

/-- The operations of the client that can re-enter each other:
`request`, `connect`, `authenticateByRefreshToken`,
`authenticateByClientCredentials`. -/
inductive Op
  | req (method path : String)
      (params data : Option (List (String × String))) (isRetry : Bool)
  | conn (accessToken refreshToken : Option String) (expiresTs : Int)
  | authRefresh (refreshToken : Option String)
  | authCreds
deriving DecidableEq, Repr

/-- The fuel-indexed interpreter of the client's operations, translated
from `src/lib/mqtt_old.js`:

* `req` is `request` (lines 211-261): the local access-token
  precondition for non-token paths, the bearer header, one transport
  outcome consumed per call, the one-shot expired-token retry
  (clear the access token, `connect(null, this.refreshToken,
  this.expiresInTimestamp)`, re-issue with `isRetry = true`) and the
  error-classification cascade;
* `conn` is `connect` (lines 122-134) with `checkAndSetAccesToken`
  (lines 143-150): adopt a truthy, unexpired supplied token (storing a
  truthy supplied refresh token) with no network call, else refresh
  grant, else password grant;
* `authRefresh` / `authCreds` are the two grants (lines 157-185),
  each POSTing to the token endpoint and storing via `setToken`. -/
def step (c : Creds) (now : Int) : Nat → Op → ClientState → List Outcome → RunResult
  | 0, _, st, outs => ⟨.error .stuck, st, outs, []⟩
  | fuel + 1, op, st, outs =>
    match op with
    | .req method path params data isRetry =>
      if path != PATH_AUTH && !truthyStr st.accessToken then
        ⟨.error (.err .missingAccessToken), st, outs, []⟩
      else
        let call : HttpCall :=
          ⟨method, path, params, data,
            if path == PATH_AUTH then none
            else some ("Bearer " ++ st.accessToken.getD "")⟩
        match outs with
        | [] => ⟨.error .stuck, st, [], [call]⟩
        | o :: rest =>
          match o with
          | .ok body => ⟨.ok body, st, rest, [call]⟩
          | .netErr emsg =>
            ⟨.error (.err (.requestFailed path emsg none)), st, rest, [call]⟩
          | .httpErr status dataOpt emsg =>
            match dataOpt with
            | none =>
              ⟨.error (.err (.requestFailed path emsg none)), st, rest, [call]⟩
            | some d =>
              if expiredSig isRetry status d then
                let st1 := { st with accessToken := none }
                let r1 := step c now fuel
                  (.conn none st1.refreshToken st1.expiresInTimestamp) st1 rest
                match r1.res with
                | .error e => ⟨.error e, r1.st, r1.outs, call :: r1.calls⟩
                | .ok _ =>
                  let r2 := step c now fuel
                    (.req method path params data true) r1.st r1.outs
                  ⟨r2.res, r2.st, r2.outs, call :: (r1.calls ++ r2.calls)⟩
              else
                ⟨.error (.err (classify path status d emsg)), st, rest, [call]⟩
    | .conn accessToken refreshToken expiresTs =>
      if truthyStr accessToken && decide (expiresTs > now) then
        let st1 := { st with accessToken := accessToken,
                             expiresInTimestamp := expiresTs }
        let st2 := if truthyStr refreshToken
          then { st1 with refreshToken := refreshToken } else st1
        ⟨.ok (.plain ""), st2, outs, []⟩
      else if truthyStr refreshToken then
        step c now fuel (.authRefresh refreshToken) st outs
      else
        step c now fuel .authCreds st outs
    | .authRefresh refreshToken =>
      if !truthyStr refreshToken then
        ⟨.error (.err .missingRefreshToken), st, outs, []⟩
      else
        let st1 := { st with refreshToken := refreshToken }
        let r := step c now fuel
          (.req "POST" PATH_AUTH none
            (some (refreshGrantData c (refreshToken.getD ""))) false) st1 outs
        match r.res with
        | .error e => ⟨.error e, r.st, r.outs, r.calls⟩
        | .ok body =>
          match setToken now body with
          | .error e => ⟨.error (.err e), r.st, r.outs, r.calls⟩
          | .ok st2 => ⟨.ok (.plain ""), st2, r.outs, r.calls⟩
    | .authCreds =>
      let r := step c now fuel
        (.req "POST" PATH_AUTH none (some (passwordGrantData c)) false) st outs
      match r.res with
      | .error e => ⟨.error e, r.st, r.outs, r.calls⟩
      | .ok body =>
        match setToken now body with
        | .error e => ⟨.error (.err e), r.st, r.outs, r.calls⟩
        | .ok st2 => ⟨.ok (.plain ""), st2, r.outs, r.calls⟩

/-- `request(method, path, params, data, isRetry)` on a given state and
pending transport outcomes. -/
def request (c : Creds) (now : Int) (fuel : Nat) (method path : String)
    (params data : Option (List (String × String))) (isRetry : Bool)
    (st : ClientState) (outs : List Outcome) : RunResult :=
  step c now fuel (.req method path params data isRetry) st outs

/-- `connect(accessToken, refreshToken, expiresInTimestamp)`. -/
def connect (c : Creds) (now : Int) (fuel : Nat)
    (accessToken refreshToken : Option String) (expiresTs : Int)
    (st : ClientState) (outs : List Outcome) : RunResult :=
  step c now fuel (.conn accessToken refreshToken expiresTs) st outs

/-- `authenticateByRefreshToken(refreshToken)`. -/
def authenticateByRefreshToken (c : Creds) (now : Int) (fuel : Nat)
    (refreshToken : Option String) (st : ClientState)
    (outs : List Outcome) : RunResult :=
  step c now fuel (.authRefresh refreshToken) st outs

/-- `authenticateByClientCredentials()`. -/
def authenticateByClientCredentials (c : Creds) (now : Int) (fuel : Nat)
    (st : ClientState) (outs : List Outcome) : RunResult :=
  step c now fuel .authCreds st outs

/-! ### Theorems about the executor and authenticator -/

/-- Claim C4 counterexample: `setToken` accepts a negative `expires_in`
(JS truthiness admits any non-zero number), so the claim's "positive
expires-in duration" requirement is not what the code enforces: on
`expires_in = -1` with non-empty tokens the call succeeds instead of
failing with `InvalidToken`, and stores expiry `now - 1`. -/
theorem setToken_accepts_negative_expiry :
    setToken 1000 (.auth ⟨some "2YotnFZFEjr1zCsicMWpAA",
        some "tGzv3JOkF0XG5Qx2TlKWIA", some (-1)⟩) =
      .ok ⟨some "2YotnFZFEjr1zCsicMWpAA", some "tGzv3JOkF0XG5Qx2TlKWIA", 999⟩ ∧
    setToken 1000 (.auth ⟨some "2YotnFZFEjr1zCsicMWpAA",
        some "tGzv3JOkF0XG5Qx2TlKWIA", some (-1)⟩) ≠
      .error NetErr.invalidToken := by
  decide

/-- Claim C4 (amended): `setToken` fails with `InvalidToken` unless the
response carries a truthy (non-empty) access token, a truthy refresh
token and a truthy (non-zero, not necessarily positive) `expires_in`;
on success it overwrites the stored tokens and sets the expiry to
`now + expires_in`. -/
theorem setToken_token_rule (now : Int) (p : AuthPayload) :
    ((truthyStr p.access_token && truthyStr p.refresh_token &&
        truthyNum p.expires_in) = true →
      setToken now (.auth p) =
        .ok ⟨p.access_token, p.refresh_token, now + p.expires_in.getD 0⟩) ∧
    ((truthyStr p.access_token && truthyStr p.refresh_token &&
        truthyNum p.expires_in) = false →
      setToken now (.auth p) = .error .invalidToken) := by
  cases ha : truthyStr p.access_token <;>
    cases hb : truthyStr p.refresh_token <;>
      cases hc : truthyNum p.expires_in <;>
        simp_all [setToken]

/-- Witness for claim C4's amended theorem: a valid auth payload is
stored with expiry `now + expires_in`, and a payload missing all fields
is rejected with `InvalidToken`. -/
theorem setToken_token_rule_witness :
    setToken 1700000000 (.auth ⟨some "2YotnFZFEjr1zCsicMWpAA",
        some "tGzv3JOkF0XG5Qx2TlKWIA", some 10800⟩) =
      .ok ⟨some "2YotnFZFEjr1zCsicMWpAA", some "tGzv3JOkF0XG5Qx2TlKWIA",
           1700010800⟩ ∧
    setToken 1700000000 (.auth ⟨none, none, none⟩) =
      .error .invalidToken := by
  constructor
  · exact ((setToken_token_rule 1700000000
      ⟨some "2YotnFZFEjr1zCsicMWpAA", some "tGzv3JOkF0XG5Qx2TlKWIA",
       some 10800⟩).1 (by decide)).trans (by decide)
  · exact (setToken_token_rule 1700000000 ⟨none, none, none⟩).2 (by decide)

/-- Whenever `request` passes its local precondition and at least one
transport outcome is pending, the first network call it records is the
one for its own method/path/params/data, with the bearer header for
non-token paths. -/
theorem step_req_calls_cons (c : Creds) (now : Int) (fuel : Nat)
    (method path : String) (params data : Option (List (String × String)))
    (isRetry : Bool) (st : ClientState) (o : Outcome) (rest : List Outcome)
    (h : (path != PATH_AUTH && !truthyStr st.accessToken) = false) :
    ∃ tl, (step c now (fuel + 1) (.req method path params data isRetry)
        st (o :: rest)).calls =
      (⟨method, path, params, data,
        if path == PATH_AUTH then none
        else some ("Bearer " ++ st.accessToken.getD "")⟩ : HttpCall) :: tl := by
  rcases o with body | ⟨status, dataOpt, emsg⟩ | emsg
  · exact ⟨[], by simp [step, h]⟩
  · rcases dataOpt with _ | d
    · exact ⟨[], by simp [step, h]⟩
    · cases hsig : expiredSig isRetry status d
      · exact ⟨[], by simp [step, h, hsig]⟩
      · simp only [step, h, hsig, Bool.false_eq_true, if_false, if_true]
        split
        · exact ⟨_, rfl⟩
        · exact ⟨_, rfl⟩
  · exact ⟨[], by simp [step, h]⟩

/-- The refresh-token grant records exactly the network calls of its
token-endpoint request. -/
theorem authRefresh_calls (c : Creds) (now : Int) (fuel : Nat)
    (rt : Option String) (st : ClientState) (outs : List Outcome)
    (h : truthyStr rt = true) :
    (step c now (fuel + 1) (.authRefresh rt) st outs).calls =
      (step c now fuel (.req "POST" PATH_AUTH none
        (some (refreshGrantData c (rt.getD ""))) false)
        { st with refreshToken := rt } outs).calls := by
  simp only [step, h, Bool.not_true, Bool.false_eq_true, if_false]
  split
  · rfl
  · split <;> rfl

/-- The password grant records exactly the network calls of its
token-endpoint request. -/
theorem authCreds_calls (c : Creds) (now : Int) (fuel : Nat)
    (st : ClientState) (outs : List Outcome) :
    (step c now (fuel + 1) .authCreds st outs).calls =
      (step c now fuel (.req "POST" PATH_AUTH none
        (some (passwordGrantData c)) false) st outs).calls := by
  simp only [step]
  split
  · rfl
  · split <;> rfl

/-- The refresh-token grant's first network call POSTs
`grant_type=refresh_token` to the token endpoint. -/
theorem authRefresh_calls_head (c : Creds) (now : Int) (fuel : Nat)
    (rt : Option String) (st : ClientState) (o : Outcome)
    (rest : List Outcome) (h : truthyStr rt = true) :
    (step c now (fuel + 2) (.authRefresh rt) st (o :: rest)).calls.head? =
      some ⟨"POST", PATH_AUTH, none,
            some (refreshGrantData c (rt.getD "")), none⟩ := by
  obtain ⟨tl, htl⟩ := step_req_calls_cons c now fuel "POST" PATH_AUTH none
    (some (refreshGrantData c (rt.getD ""))) false
    { st with refreshToken := rt } o rest (by simp)
  have hc := authRefresh_calls c now (fuel + 1) rt st (o :: rest) h
  rw [hc, htl]
  simp

/-- The password grant's first network call POSTs `grant_type=password`
to the token endpoint. -/
theorem authCreds_calls_head (c : Creds) (now : Int) (fuel : Nat)
    (st : ClientState) (o : Outcome) (rest : List Outcome) :
    (step c now (fuel + 2) .authCreds st (o :: rest)).calls.head? =
      some ⟨"POST", PATH_AUTH, none, some (passwordGrantData c), none⟩ := by
  obtain ⟨tl, htl⟩ := step_req_calls_cons c now fuel "POST" PATH_AUTH none
    (some (passwordGrantData c)) false st o rest (by simp)
  have hc := authCreds_calls c now (fuel + 1) st (o :: rest)
  rw [hc, htl]
  simp

/-- With no adoptable access token and a truthy refresh token, `connect`
is the refresh-token grant. -/
theorem connect_to_refresh (c : Creds) (now : Int) (fuel : Nat)
    (atk rt : Option String) (ts : Int) (st : ClientState)
    (outs : List Outcome)
    (h1 : (truthyStr atk && decide (ts > now)) = false)
    (h2 : truthyStr rt = true) :
    step c now (fuel + 1) (.conn atk rt ts) st outs =
      step c now fuel (.authRefresh rt) st outs := by
  simp [step, h1, h2]

/-- With no adoptable access token and no truthy refresh token,
`connect` is the password grant. -/
theorem connect_to_creds (c : Creds) (now : Int) (fuel : Nat)
    (atk rt : Option String) (ts : Int) (st : ClientState)
    (outs : List Outcome)
    (h1 : (truthyStr atk && decide (ts > now)) = false)
    (h2 : truthyStr rt = false) :
    step c now (fuel + 1) (.conn atk rt ts) st outs =
      step c now fuel .authCreds st outs := by
  simp [step, h1, h2]

/-- Claim C3: `connect` is a three-tier fallback.  A truthy supplied
access token with a future expiry is adopted directly — no network call
(`calls = []`), and a truthy supplied refresh token is stored.
Otherwise, a truthy refresh token routes to the refresh-token grant
(whose first network call POSTs `grant_type=refresh_token` to the token
endpoint); otherwise the password grant runs (first network call POSTs
`grant_type=password`). -/
theorem connect_three_tier (c : Creds) (now : Int) (fuel : Nat)
    (atk rt : Option String) (ts : Int) (st : ClientState)
    (outs : List Outcome) (o : Outcome) (rest : List Outcome) :
    ((truthyStr atk && decide (ts > now)) = true →
      connect c now (fuel + 1) atk rt ts st outs =
        ⟨.ok (.plain ""),
         { accessToken := atk,
           refreshToken := if truthyStr rt then rt else st.refreshToken,
           expiresInTimestamp := ts }, outs, []⟩) ∧
    ((truthyStr atk && decide (ts > now)) = false → truthyStr rt = true →
      connect c now (fuel + 1) atk rt ts st outs =
        authenticateByRefreshToken c now fuel rt st outs ∧
      (connect c now (fuel + 3) atk rt ts st (o :: rest)).calls.head? =
        some ⟨"POST", PATH_AUTH, none,
              some (refreshGrantData c (rt.getD "")), none⟩) ∧
    ((truthyStr atk && decide (ts > now)) = false → truthyStr rt = false →
      connect c now (fuel + 1) atk rt ts st outs =
        authenticateByClientCredentials c now fuel st outs ∧
      (connect c now (fuel + 3) atk rt ts st (o :: rest)).calls.head? =
        some ⟨"POST", PATH_AUTH, none, some (passwordGrantData c), none⟩) := by
  refine ⟨?_, ?_, ?_⟩
  · intro h1
    cases htr : truthyStr rt <;>
      simp [connect, step, h1, htr]
  · intro h1 h2
    refine ⟨connect_to_refresh c now fuel atk rt ts st outs h1 h2, ?_⟩
    show (step c now ((fuel + 2) + 1) (.conn atk rt ts) st (o :: rest)).calls.head? = _
    rw [connect_to_refresh c now (fuel + 2) atk rt ts st (o :: rest) h1 h2]
    exact authRefresh_calls_head c now fuel rt st o rest h2
  · intro h1 h2
    refine ⟨connect_to_creds c now fuel atk rt ts st outs h1 h2, ?_⟩
    show (step c now ((fuel + 2) + 1) (.conn atk rt ts) st (o :: rest)).calls.head? = _
    rw [connect_to_creds c now (fuel + 2) atk rt ts st (o :: rest) h1 h2]
    exact authCreds_calls_head c now fuel st o rest

/-- Claim C5: for every non-token path, an untruthy stored access token
makes `request` fail with `MissingAccessToken` locally — the state and
the pending outcomes are untouched and no network call is recorded; with
a stored token present, the (first) network call carries the
`Bearer <token>` authorization header. -/
theorem request_access_token_precondition (c : Creds) (now : Int)
    (fuel : Nat) (method path : String)
    (params data : Option (List (String × String))) (isRetry : Bool)
    (st : ClientState) (outs : List Outcome) (tok : String) (o : Outcome)
    (rest : List Outcome) :
    (path ≠ PATH_AUTH → truthyStr st.accessToken = false →
      request c now (fuel + 1) method path params data isRetry st outs =
        ⟨.error (.err .missingAccessToken), st, outs, []⟩) ∧
    (st.accessToken = some tok → tok ≠ "" → path ≠ PATH_AUTH →
      (request c now (fuel + 1) method path params data isRetry st
        (o :: rest)).calls.head? =
      some ⟨method, path, params, data, some ("Bearer " ++ tok)⟩) := by
  constructor
  · intro hp ht
    simp [request, step, hp, ht]
  · intro hst htk hp
    obtain ⟨tl, htl⟩ := step_req_calls_cons c now fuel method path params
      data isRetry st o rest (by simp [hst, truthyStr, htk])
    show (step c now (fuel + 1)
      (.req method path params data isRetry) st (o :: rest)).calls.head? = _
    rw [htl]
    simp [hst, hp]

/-- Claim C6: when the retry signature does not match, `request`
classifies a structured error response in the fixed cascade order:
`error_description` first (taking priority over `error.message` —
the first branch needs nothing about `error`), then `error.message`,
then `JSON.stringify(error)`, and otherwise — including an error
response with no structured data at all and a transport-level failure
with no response — the raw transport message without a status. -/
theorem request_error_classification (c : Creds) (now : Int) (fuel : Nat)
    (method path : String) (params data : Option (List (String × String)))
    (isRetry : Bool) (st : ClientState) (status : Int) (d : ErrData)
    (emsg : String) (rest : List Outcome) (v : ErrVal) (desc msg : String) :
    (truthyStr st.accessToken = true →
      expiredSig isRetry status d = false →
      request c now (fuel + 1) method path params data isRetry st
          (.httpErr status (some d) emsg :: rest) =
        ⟨.error (.err (classify path status d emsg)), st, rest,
         [⟨method, path, params, data,
           if path == PATH_AUTH then none
           else some ("Bearer " ++ st.accessToken.getD "")⟩]⟩) ∧
    (d.error_description = some desc → desc ≠ "" →
      classify path status d emsg = .requestFailed path desc (some status)) ∧
    (truthyStr d.error_description = false → truthyErrVal d.error = true →
      errMessage d.error = some msg → msg ≠ "" →
      classify path status d emsg = .requestFailed path msg (some status)) ∧
    (truthyStr d.error_description = false → d.error = some v →
      truthyErrVal (some v) = true → truthyStr (errMessage (some v)) = false →
      classify path status d emsg =
        .requestFailed path (jsonStringify v) (some status)) ∧
    (truthyStr d.error_description = false → truthyErrVal d.error = false →
      classify path status d emsg = .requestFailed path emsg none) ∧
    (truthyStr st.accessToken = true →
      request c now (fuel + 1) method path params data isRetry st
          (.httpErr status none emsg :: rest) =
        ⟨.error (.err (.requestFailed path emsg none)), st, rest,
         [⟨method, path, params, data,
           if path == PATH_AUTH then none
           else some ("Bearer " ++ st.accessToken.getD "")⟩]⟩) ∧
    (truthyStr st.accessToken = true →
      request c now (fuel + 1) method path params data isRetry st
          (.netErr emsg :: rest) =
        ⟨.error (.err (.requestFailed path emsg none)), st, rest,
         [⟨method, path, params, data,
           if path == PATH_AUTH then none
           else some ("Bearer " ++ st.accessToken.getD "")⟩]⟩) := by
  refine ⟨?_, ?_, ?_, ?_, ?_, ?_, ?_⟩
  · intro h0 hsig
    simp [request, step, h0, hsig]
  · intro hdesc hne
    simp [classify, truthyStr, hdesc, hne]
  · intro hdesc herr hmsg hne
    have hts : truthyStr (some msg) = true := by simp [truthyStr, hne]
    simp [classify, hdesc, herr, hmsg, hts]
  · intro hdesc hv herr hm
    simp [classify, hdesc, hv, herr, hm]
  · intro hdesc herr
    simp [classify, hdesc, herr]
  · intro h0
    simp [request, step, h0]
  · intro h0
    simp [request, step, h0]

/-- Claim C2: on the first attempt (`isRetry = false`), a structured
error with status 401 or 403 and a truthy vendor error code equal to 3
makes `request` clear only the stored access token (the refresh token is
kept in the state it hands to `connect`), re-run
`connect(null, storedRefreshToken, storedExpiry)`, and — if that
succeeds — re-issue the identical request exactly once with
`isRetry = true`, prefixing the calls it makes with the original one.
If the retried request receives the same expired-token signature again,
the `isRetry` flag suppresses any further retry and it fails as an
ordinary `RequestFailed(path, error.message, status)` after exactly one
more network call. -/
theorem request_expired_token_retry (c : Creds) (now : Int) (fuel : Nat)
    (method path : String) (params data : Option (List (String × String)))
    (st st2 : ClientState) (status status2 : Int) (d : ErrData)
    (emsg emsg2 msg2 : String) (rest rest2 : List Outcome) :
    (truthyStr st.accessToken = true →
      expiredSig false status d = true →
      request c now (fuel + 1) method path params data false st
          (.httpErr status (some d) emsg :: rest) =
        (let call : HttpCall := ⟨method, path, params, data,
           if path == PATH_AUTH then none
           else some ("Bearer " ++ st.accessToken.getD "")⟩
         let r1 := connect c now fuel none st.refreshToken
           st.expiresInTimestamp { st with accessToken := none } rest
         match r1.res with
         | .error e => ⟨.error e, r1.st, r1.outs, call :: r1.calls⟩
         | .ok _ =>
           let r2 := request c now fuel method path params data true
             r1.st r1.outs
           ⟨r2.res, r2.st, r2.outs, call :: (r1.calls ++ r2.calls)⟩)) ∧
    (truthyStr st2.accessToken = true → msg2 ≠ "" →
      request c now (fuel + 1) method path params data true st2
          (.httpErr status2
            (some ⟨none, some (.obj (some 3) (some msg2))⟩) emsg2 :: rest2) =
        ⟨.error (.err (.requestFailed path msg2 (some status2))), st2, rest2,
         [⟨method, path, params, data,
           if path == PATH_AUTH then none
           else some ("Bearer " ++ st2.accessToken.getD "")⟩]⟩) := by
  constructor
  · intro h0 hsig
    simp [request, connect, step, h0, hsig]
  · intro h0 hne
    have hts : truthyStr (some msg2) = true := by simp [truthyStr, hne]
    simp [request, step, h0, expiredSig, classify, hts, truthyErrVal,
      errMessage]
    simp [truthyStr]

/-! ### Concrete fixtures and witnesses for the executor theorems -/

def cW : Creds := ⟨"clientId", "clientSecret", "user", "password"⟩

def stEmptyW : ClientState := ⟨none, none, 0⟩

def stTok : ClientState := ⟨some "tok", some "ref", 2000⟩

/-- A successful token-endpoint response (the test suite's
`authResult`). -/
def authOkW : Outcome :=
  .ok (.auth ⟨some "2YotnFZFEjr1zCsicMWpAA",
    some "tGzv3JOkF0XG5Qx2TlKWIA", some 10800⟩)

/-- The expired-token error body `{error: {code: 3, message: 'Access
token expired'}}`. -/
def sigD : ErrData := ⟨none, some (.obj (some 3) (some "Access token expired"))⟩

/-- Witness for claim C3's theorem: adoption of a valid supplied token
with no network call, delegation to the refresh grant (first call
`grant_type=refresh_token`), and delegation to the password grant
(first call `grant_type=password`), at concrete inputs. -/
theorem connect_three_tier_witness :
    connect cW 1000 1 (some "tok") (some "ref") 2000 stEmptyW [] =
      ⟨.ok (.plain ""), ⟨some "tok", some "ref", 2000⟩, [], []⟩ ∧
    connect cW 1000 1 none (some "ref") 0 stEmptyW [authOkW] =
      authenticateByRefreshToken cW 1000 0 (some "ref") stEmptyW [authOkW] ∧
    (connect cW 1000 3 none (some "ref") 0 stEmptyW [authOkW]).calls.head? =
      some ⟨"POST", PATH_AUTH, none, some (refreshGrantData cW "ref"), none⟩ ∧
    connect cW 1000 1 none none 0 stEmptyW [authOkW] =
      authenticateByClientCredentials cW 1000 0 stEmptyW [authOkW] ∧
    (connect cW 1000 3 none none 0 stEmptyW [authOkW]).calls.head? =
      some ⟨"POST", PATH_AUTH, none, some (passwordGrantData cW), none⟩ := by
  refine ⟨?_, ?_, ?_, ?_, ?_⟩
  · exact ((connect_three_tier cW 1000 0 (some "tok") (some "ref") 2000
      stEmptyW [] authOkW []).1 (by decide)).trans (by decide)
  · exact ((connect_three_tier cW 1000 0 none (some "ref") 0 stEmptyW
      [authOkW] authOkW []).2.1 (by decide) (by decide)).1
  · exact ((connect_three_tier cW 1000 0 none (some "ref") 0 stEmptyW
      [authOkW] authOkW []).2.1 (by decide) (by decide)).2
  · exact ((connect_three_tier cW 1000 0 none none 0 stEmptyW
      [authOkW] authOkW []).2.2 (by decide) (by decide)).1
  · exact ((connect_three_tier cW 1000 0 none none 0 stEmptyW
      [authOkW] authOkW []).2.2 (by decide) (by decide)).2

/-- Witness for claim C5's theorem: with no stored token, a request to a
non-token path fails locally with `MissingAccessToken` and records no
network call; with a stored token, the call carries `Bearer tok`. -/
theorem request_access_token_precondition_witness :
    request cW 1000 1 "GET" "/api/getstationsdata" none none false
        stEmptyW [] =
      ⟨.error (.err .missingAccessToken), stEmptyW, [], []⟩ ∧
    (request cW 1000 1 "GET" "/api/getstationsdata" none none false stTok
        [authOkW]).calls.head? =
      some ⟨"GET", "/api/getstationsdata", none, none, some "Bearer tok"⟩ := by
  constructor
  · exact (request_access_token_precondition cW 1000 0 "GET"
      "/api/getstationsdata" none none false stEmptyW [] "tok" authOkW
      []).1 (by decide) (by decide)
  · exact (request_access_token_precondition cW 1000 0 "GET"
      "/api/getstationsdata" none none false stTok [] "tok" authOkW
      []).2 rfl (by decide) (by decide)

/-- The bodies of the test suite's error endpoints. -/
def dAuthErr : ErrData :=
  ⟨some "Missing parameters, \"username\" and \"password\" are required",
   some (.str "invalid_request")⟩

def dAppErr : ErrData := ⟨none, some (.obj (some 1) (some "Access token is missing"))⟩

def dNoMsgErr : ErrData := ⟨none, some (.obj (some 99) none)⟩

/-- Witness for claim C6's theorem: each classification branch at a
concrete input — `error_description` priority, `error.message`,
`JSON.stringify(error)`, missing structured error, missing data, and
transport failure. -/
theorem request_error_classification_witness :
    request cW 1000 1 "GET" "/authError" none none false stTok
        [.httpErr 400 (some dAuthErr) "Request failed with status code 400"] =
      ⟨.error (.err (.requestFailed "/authError"
          "Missing parameters, \"username\" and \"password\" are required"
          (some 400))), stTok, [],
       [⟨"GET", "/authError", none, none, some "Bearer tok"⟩]⟩ ∧
    classify "/appError" 400 dAppErr "x" =
      .requestFailed "/appError" "Access token is missing" (some 400) ∧
    classify "/noMessageError" 500 dNoMsgErr "x" =
      .requestFailed "/noMessageError"
        (jsonStringify (.obj (some 99) none)) (some 500) ∧
    classify "/timeout" 500 (⟨none, none⟩ : ErrData)
        "timeout of 0ms exceeded" =
      .requestFailed "/timeout" "timeout of 0ms exceeded" none ∧
    request cW 1000 1 "GET" "/missing" none none false stTok
        [.httpErr 404 none "Request failed with status code 404"] =
      ⟨.error (.err (.requestFailed "/missing"
          "Request failed with status code 404" none)), stTok, [],
       [⟨"GET", "/missing", none, none, some "Bearer tok"⟩]⟩ ∧
    request cW 1000 1 "GET" "/timeout" none none false stTok
        [.netErr "timeout of 0ms exceeded"] =
      ⟨.error (.err (.requestFailed "/timeout"
          "timeout of 0ms exceeded" none)), stTok, [],
       [⟨"GET", "/timeout", none, none, some "Bearer tok"⟩]⟩ := by
  refine ⟨?_, ?_, ?_, ?_, ?_, ?_⟩
  · exact ((request_error_classification cW 1000 0 "GET" "/authError"
      none none false stTok 400 dAuthErr
      "Request failed with status code 400" [] (.str "x") "" "").1
      (by decide) (by decide)).trans (by decide)
  · exact (request_error_classification cW 1000 0 "GET" "/appError"
      none none false stTok 400 dAppErr "x" [] (.str "x") ""
      "Access token is missing").2.2.1 (by decide) (by decide) rfl
      (by decide)
  · exact (request_error_classification cW 1000 0 "GET" "/noMessageError"
      none none false stTok 500 dNoMsgErr "x" [] (.obj (some 99) none)
      "" "").2.2.2.1 (by decide) rfl (by decide) (by decide)
  · exact (request_error_classification cW 1000 0 "GET" "/timeout"
      none none false stTok 500 ⟨none, none⟩ "timeout of 0ms exceeded" []
      (.str "x") "" "").2.2.2.2.1 (by decide) (by decide)
  · exact ((request_error_classification cW 1000 0 "GET" "/missing"
      none none false stTok 404 ⟨none, none⟩
      "Request failed with status code 404" [] (.str "x") "" ""
      ).2.2.2.2.2.1 (by decide)).trans (by decide)
  · exact ((request_error_classification cW 1000 0 "GET" "/timeout"
      none none false stTok 500 ⟨none, none⟩ "timeout of 0ms exceeded" []
      (.str "x") "" "").2.2.2.2.2.2 (by decide)).trans (by decide)

/-- Witness for claim C2's theorem: a first-attempt 401 code-3 error
leads to one re-authentication (refresh grant) and one identical retry
that succeeds — three network calls in total, the last bearing the new
token — and a retried request hitting the same signature fails as
`RequestFailed` after exactly one network call. -/
theorem request_expired_token_retry_witness :
    request cW 1000 9 "GET" "/path" none none false stTok
        [.httpErr 401 (some sigD) "Request failed with status code 401",
         authOkW, .ok (.plain "data")] =
      ⟨.ok (.plain "data"),
       ⟨some "2YotnFZFEjr1zCsicMWpAA", some "tGzv3JOkF0XG5Qx2TlKWIA", 11800⟩,
       [],
       [⟨"GET", "/path", none, none, some "Bearer tok"⟩,
        ⟨"POST", PATH_AUTH, none, some (refreshGrantData cW "ref"), none⟩,
        ⟨"GET", "/path", none, none,
         some "Bearer 2YotnFZFEjr1zCsicMWpAA"⟩]⟩ ∧
    request cW 1000 1 "GET" "/path" none none true stTok
        [.httpErr 403 (some sigD) "Request failed with status code 403"] =
      ⟨.error (.err (.requestFailed "/path" "Access token expired"
          (some 403))), stTok, [],
       [⟨"GET", "/path", none, none, some "Bearer tok"⟩]⟩ := by
  constructor
  · exact ((request_expired_token_retry cW 1000 8 "GET" "/path" none none
      stTok stTok 401 403 sigD "Request failed with status code 401"
      "Request failed with status code 403" "Access token expired"
      [authOkW, .ok (.plain "data")] []).1 (by decide) (by decide)).trans
      (by decide)
  · exact (request_expired_token_retry cW 1000 0 "GET" "/path" none none
      stTok stTok 401 403 sigD "Request failed with status code 401"
      "Request failed with status code 403" "Access token expired"
      [authOkW, .ok (.plain "data")] []).2 (by decide) (by decide)

end Netatmo
